import Mathlib

/-!
Verification development for the Flingoos web UI session controller
(src/web_ui/web_server.py).  The Python class WebUIServer is embedded
shallowly: its mutable attributes form the record ServerState, the
Socket.IO and HTTP handlers become functions on that record, and the
background monitor thread monitor_uploads_and_forge becomes a pure
function from the outcomes of the external collaborator calls to the
ordered list of emitted events.  The external collaborators
(BridgeClient, ForgeTriggerGenerator, MockForge, FirestoreClient) live
in a different repository (flingoos-session-manager); their behaviour
enters the model as explicit outcome parameters, matching the facade
contracts of the specification.  The action trace of a stop cycle
sequentialises the background monitor thread after the synchronous
body of stop_session, which is how the code behaves in time: the
clearing of the session fields happens immediately, while the monitor
events are spread over the many seconds of its sleep calls.
-/

namespace FlingoosWebUI

/-- One entry of the progress list kept in upload_status, a dictionary
with keys message and status ("uploading" or "completed"). -/
structure StepEntry where
  message : String
  status : String
deriving DecidableEq, Repr

/-- The value of self.upload_status: the dictionary with keys
current_step, is_uploading and steps. -/
structure UploadStatus where
  current_step : String
  is_uploading : Bool
  steps : List StepEntry
deriving DecidableEq, Repr

/-- The inner dictionary stored under the key workflow_data in a response
of FirestoreClient.get_random_published_workflow.  Each field is optional
because the Python code reads it with dict.get and a default. -/
structure WorkflowInfo where
  title : Option String
  productivity_score : Option ℚ
  guide_markdown : Option String
deriving DecidableEq, Repr

/-- The outer dictionary returned by get_random_published_workflow, with
each key optional: the code probes the keys with dict.get and with the
membership test on the key workflow_data. -/
structure WorkflowResponse where
  workflow_data : Option WorkflowInfo
  workflow_id : Option String
  firestore_url : Option String
  source : Option String
deriving DecidableEq, Repr

/-- The inner workflow dictionary of self.current_workflow.  The fallback
branch of the code builds this dictionary without the firestore_url key,
hence that field is optional. -/
structure WorkflowRecord where
  title : String
  id : String
  score : ℚ
  guide_markdown : String
  firestore_url : Option String
deriving DecidableEq, Repr

/-- The value assigned to self.current_workflow (when not None). -/
structure CurrentWorkflow where
  workflow : WorkflowRecord
  source : String
deriving DecidableEq, Repr

/-- The hardcoded fallback workflow built in
WebUIServer._retrieve_workflow_from_firestore when the response is absent
or lacks the workflow_data key. -/
def fallback_workflow : CurrentWorkflow :=
  { workflow :=
      { title := "Sample Workflow"
        id := "fallback-001"
        score := 85 / 100
        guide_markdown := "# Sample Workflow Guide\n\nThis is a fallback workflow when Firestore data is not available.\n\n## Steps\n1. Review the session data\n2. Analyze patterns\n3. Generate insights"
        firestore_url := none }
    source := "fallback" }

/-- WebUIServer._retrieve_workflow_from_firestore.  The outcome parameter
is the behaviour of the call firestore_client.get_random_published_workflow:
ok with the returned value (possibly None), or error when the call raised.
The surrounding try/except of the Python method only logs on an exception,
so on the error branch the prior value of current_workflow is kept. -/
def retrieve_workflow_from_firestore (prior : Option CurrentWorkflow)
    (outcome : Except String (Option WorkflowResponse)) : Option CurrentWorkflow :=
  match outcome with
  | .error _ => prior
  | .ok none => some fallback_workflow
  | .ok (some wd) =>
    match wd.workflow_data with
    | none => some fallback_workflow
    | some info =>
      some
        { workflow :=
            { title := info.title.getD "Unknown Workflow"
              id := wd.workflow_id.getD "unknown"
              score := info.productivity_score.getD 0
              guide_markdown := info.guide_markdown.getD ""
              firestore_url := some (wd.firestore_url.getD "") }
          source := wd.source.getD "firestore" }

/-- The response dictionary of MockForge.process_session, of which the
code only inspects the status key. -/
structure ForgeResponse where
  status : Option String
deriving DecidableEq, Repr

/-- Behaviour of the three collaborator calls made during one pipeline
run: the trigger generation (generate_trigger_json and save_trigger_to_file),
the forge processing call, and the Firestore retrieval.  An error value
means the call raised. -/
structure ForgeOutcomes where
  trigger_generation : Except String Unit
  forge_processing : Except String ForgeResponse
  retrieval : Except String (Option WorkflowResponse)
deriving Repr

/-- WebUIServer._execute_forge_trigger_generation, reduced to its
observable output: the log lines it produces.  The try/except of the
method is embedded as totality: every outcome yields a log, an exception
yields the error log and nothing escapes. -/
def execute_forge_trigger_generation (outcome : Except String Unit) : List String :=
  match outcome with
  | .ok _ => ["Generated forge trigger"]
  | .error e => ["Error generating forge trigger: " ++ e]

/-- WebUIServer._execute_forge_processing, reduced to its log output.
A response whose status is not completed is logged as a failure; an
exception is caught and logged; in no case does anything escape or any
session state change. -/
def execute_forge_processing (outcome : Except String ForgeResponse) : List String :=
  match outcome with
  | .error e => ["Error in forge processing: " ++ e]
  | .ok r =>
    if r.status = some "completed" then ["Forge processing response"]
    else ["Forge processing response", "Forge processing failed"]

/-- Boolean test that pat is a leading piece of s (character lists). -/
def charPrefixB : List Char → List Char → Bool
  | [], _ => true
  | _ :: _, [] => false
  | p :: ps, c :: cs => (p = c) && charPrefixB ps cs

/-- Boolean test that pat occurs contiguously inside s (character lists). -/
def charInfixB (pat : List Char) : List Char → Bool
  | [] => charPrefixB pat []
  | c :: cs => charPrefixB pat (c :: cs) || charInfixB pat cs

/-- The Python membership test pat in s on strings. -/
def strContainsSubstr (s pat : String) : Bool :=
  charInfixB pat.data s.data

/-- Events emitted through Socket.IO that the embedding tracks:
upload_status_update progress snapshots, workflow_ready, upload_complete
and the session_stopped lifecycle event.  (The session_error emission of
a handler is addressed to the requesting client only; it is modelled as
the error reply of the handler, not as an event.) -/
inductive Event where
  | upload_status_update (u : UploadStatus)
  | workflow_ready (w : CurrentWorkflow)
  | upload_complete (has_workflow : Bool)
  | session_stopped (session_id : Option String)
deriving DecidableEq, Repr

/-- Observable actions of a stop cycle: an emission, or the clearing of
the session fields (session_active, session_start_time, session_id)
performed by stop_session. -/
inductive Action where
  | emit (e : Event)
  | clear_session_state
deriving DecidableEq, Repr

/-- Step entry in the uploading state. -/
def stepUploading (m : String) : StepEntry := ⟨m, "uploading"⟩

/-- Step entry in the completed state. -/
def stepCompletedE (m : String) : StepEntry := ⟨m, "completed"⟩

/-- The four placeholder upload steps of monitor_uploads_and_forge
(durations omitted: they pace the feed and touch no state). -/
def upload_step_messages : List String :=
  ["Uploading audio...",
   "Uploading screenshots...",
   "Uploading telemetry (mouse, keyboard, window changes)...",
   "Verifying uploads..."]

/-- The five forge steps of monitor_uploads_and_forge. -/
def forge_step_messages : List String :=
  ["Generating forge trigger JSON...",
   "Triggering forge processing pipeline...",
   "Processing workflow (stages A-F)...",
   "Uploading results to Firestore...",
   "Retrieving processed workflow..."]

/-- The upload loop of monitor_uploads_and_forge: for each step it emits
a snapshot with the step marked uploading after the completed steps so
far, then appends the step as completed.  Returns the emitted events and
the final completed list. -/
def uploadLoop : List String → List StepEntry → List Event × List StepEntry
  | [], completed => ([], completed)
  | m :: rest, completed =>
    let ev := Event.upload_status_update ⟨m, true, completed ++ [stepUploading m]⟩
    let r := uploadLoop rest (completed ++ [stepCompletedE m])
    (ev :: r.1, r.2)

/-- The dispatch inside the forge loop: the code matches substrings of the
step message to decide which collaborator to invoke.  Only the retrieval
step touches current_workflow; the trigger-generation and forge-processing
wrappers catch their own exceptions and only log, and the remaining steps
merely sleep. -/
def forgeAction (oc : ForgeOutcomes) (cw : Option CurrentWorkflow) (m : String) :
    Option CurrentWorkflow :=
  if strContainsSubstr m "Generating forge trigger" then cw
  else if strContainsSubstr m "Triggering forge processing" then cw
  else if strContainsSubstr m "Retrieving processed workflow" then
    retrieve_workflow_from_firestore cw oc.retrieval
  else cw

/-- The forge loop of monitor_uploads_and_forge: per step, emit a snapshot
with the step uploading, run the dispatched action, append the step as
completed.  Returns events, final completed list, and final
current_workflow. -/
def forgeLoop (oc : ForgeOutcomes) :
    List String → List StepEntry → Option CurrentWorkflow →
    List Event × List StepEntry × Option CurrentWorkflow
  | [], completed, cw => ([], completed, cw)
  | m :: rest, completed, cw =>
    let ev := Event.upload_status_update ⟨m, true, completed ++ [stepUploading m]⟩
    let r := forgeLoop oc rest (completed ++ [stepCompletedE m]) (forgeAction oc cw m)
    (ev :: r.1, r.2.1, r.2.2)

/-- The last two emissions of the monitor: workflow_ready when
current_workflow is set (a non-empty dictionary is truthy), then
upload_complete carrying whether a workflow is available. -/
def tail_events : Option CurrentWorkflow → List Event
  | some w => [Event.workflow_ready w, Event.upload_complete true]
  | none => [Event.upload_complete false]

/-- Result of one run of the monitor thread. -/
structure MonitorRun where
  events : List Event
  final_workflow : Option CurrentWorkflow
  final_status : UploadStatus
deriving DecidableEq, Repr

/-- The body monitor_uploads_and_forge of _start_upload_monitoring,
parameterised by the collaborator outcomes and the value of
current_workflow when the retrieval step runs. -/
def monitor_uploads_and_forge (oc : ForgeOutcomes) (cw0 : Option CurrentWorkflow) :
    MonitorRun :=
  let m0 := "Starting data flush..."
  let init_status : UploadStatus := ⟨m0, true, [stepUploading m0]⟩
  let completed0 : List StepEntry := [stepCompletedE m0]
  let up := uploadLoop upload_step_messages completed0
  let completed2 := up.2 ++ [stepCompletedE "All uploads completed successfully!"]
  let fg := forgeLoop oc forge_step_messages completed2 cw0
  let completed4 := fg.2.1 ++
    [stepCompletedE "Workflow processing completed! Ready to view results."]
  let fs : UploadStatus := ⟨"Processing complete", false, completed4⟩
  { events := Event.upload_status_update init_status ::
      (up.1 ++ fg.1 ++ [Event.upload_status_update fs] ++ tail_events fg.2.2)
    final_workflow := fg.2.2
    final_status := fs }

/-- The mutable attributes of WebUIServer that the session logic touches. -/
structure ServerState where
  session_active : Bool
  session_start_time : Option Nat
  session_id : Option String
  current_workflow : Option CurrentWorkflow
  upload_status : UploadStatus
deriving DecidableEq, Repr

/-- Failure modes of start_session: the guard raise when a session is
already active, and the raise when the audio start command reports
failure. -/
inductive StartError where
  | already_active
  | agent_start_failed
deriving DecidableEq, Repr

/-- Failure mode of stop_session: the guard raise when no session is
active. -/
inductive StopError where
  | no_active_session
deriving DecidableEq, Repr

/-- WebUIServer.start_session.  agent_ok is the success flag of the
bridge start_audio_recording result, new_id the generated uuid, now the
recorded start time.  Note that neither current_workflow nor
upload_status is touched. -/
def start_session (s : ServerState) (agent_ok : Bool) (new_id : String) (now : Nat) :
    Except StartError ServerState :=
  if s.session_active then .error .already_active
  else if agent_ok = false then .error .agent_start_failed
  else .ok { s with session_active := true
                    session_start_time := some now
                    session_id := some new_id }

/-- WebUIServer.stop_session.  agent_stop_ok is the success flag of the
bridge stop_audio_recording result; a failure there is only logged.  The
method starts the monitor thread and then clears the session fields; the
action trace records the clearing followed by the monitor emissions (the
monitor events trail over its sleep calls while the clearing is
immediate). -/
def stop_session (s : ServerState) (agent_stop_ok : Bool) (oc : ForgeOutcomes) :
    Except StopError (ServerState × List Action) :=
  if s.session_active = false then .error .no_active_session
  else
    let run := monitor_uploads_and_forge oc s.current_workflow
    .ok
      ({ session_active := false
         session_start_time := none
         session_id := none
         current_workflow := run.final_workflow
         upload_status := run.final_status },
       Action.clear_session_state :: run.events.map Action.emit)

/-- Result of the Socket.IO stop_session handler: the new server state,
the error reply to the requesting client (the session_error payload, if
any), and the trace of observable actions. -/
structure HandleStopResult where
  state : ServerState
  error_reply : Option String
  trace : List Action
deriving DecidableEq, Repr

/-- The Socket.IO handler handle_stop_session: if no session is active it
replies session_error and does nothing; otherwise it emits session_stopped
first and only then calls stop_session. -/
def handle_stop_session (s : ServerState) (agent_stop_ok : Bool) (oc : ForgeOutcomes) :
    HandleStopResult :=
  if s.session_active = false then
    { state := s, error_reply := some "No active session to stop", trace := [] }
  else
    match stop_session s agent_stop_ok oc with
    | .ok (s2, tr) =>
      { state := s2
        error_reply := none
        trace := Action.emit (Event.session_stopped s.session_id) :: tr }
    | .error _ =>
      { state := s
        error_reply := some "No active session to stop"
        trace := [Action.emit (Event.session_stopped s.session_id)] }

/-- The JSON body returned by the POST /api/session/stop route.  The
session_id field is doubly optional: none means the key is absent (the
error body has no such key), some none means the key is present with the
value null. -/
structure StopApiResponse where
  success : Bool
  session_id : Option (Option String)
  message : Option String
  error : Option String
deriving DecidableEq, Repr

/-- Result of the POST /api/session/stop route. -/
structure ApiStopResult where
  state : ServerState
  response : StopApiResponse
  http_code : Nat
  trace : List Action
deriving DecidableEq, Repr

/-- The route api_stop_session: guard on session_active, call
stop_session, then build the JSON body reading self.session_id after
stop_session has already mutated it. -/
def api_stop_session (s : ServerState) (agent_stop_ok : Bool) (oc : ForgeOutcomes) :
    ApiStopResult :=
  if s.session_active = false then
    { state := s
      response := { success := false, session_id := none, message := none
                    error := some "No active session to stop" }
      http_code := 400
      trace := [] }
  else
    match stop_session s agent_stop_ok oc with
    | .ok (s2, tr) =>
      { state := s2
        response := { success := true
                      session_id := some s2.session_id
                      message := some "Session stopped, processing workflow..."
                      error := none }
        http_code := 200
        trace := tr }
    | .error _ =>
      { state := s
        response := { success := false, session_id := none, message := none
                      error := some "No active session to stop" }
        http_code := 500
        trace := [] }

/-- The JSON body returned by GET /api/session/status. -/
structure StatusResponse where
  success : Bool
  session_active : Bool
  session_id : Option String
  bridge_connected : Bool
  has_workflow : Bool
deriving DecidableEq, Repr

/-- The route api_get_status: has_workflow is the truthiness of
self.current_workflow. -/
def api_get_status (s : ServerState) (bridge_ok : Bool) : StatusResponse :=
  { success := true
    session_active := s.session_active
    session_id := s.session_id
    bridge_connected := bridge_ok
    has_workflow := s.current_workflow.isSome }

/-- Test that a step entry has the completed status. -/
def isCompletedEntry (e : StepEntry) : Bool := e.status == "completed"

/-- The entries of a snapshot whose status is completed, in order. -/
def completedEntries (u : UploadStatus) : List StepEntry :=
  u.steps.filter isCompletedEntry

/-- The messages of the completed entries of a snapshot, in order. -/
def completedMessages (u : UploadStatus) : List String :=
  (completedEntries u).map StepEntry.message

/-- Extract the snapshot payload of an upload_status_update event. -/
def snapshotOf : Event → Option UploadStatus
  | .upload_status_update u => some u
  | _ => none

/-- The progress snapshots carried by a list of events, in emission order. -/
def snapshots (evs : List Event) : List UploadStatus :=
  evs.filterMap snapshotOf

/-- The sequence of step labels reported across all progress snapshots of a
run, filtered to completed entries.  The snapshots are cumulative, so the
completed entries of the last snapshot list every label that was ever
reported as completed, in order of completion. -/
def emitted_completed_sequence (evs : List Event) : List String :=
  match (snapshots evs).getLast? with
  | some u => completedMessages u
  | none => []

/-- Test that an action is the clearing of the session fields. -/
def isClearAction : Action → Bool
  | .clear_session_state => true
  | _ => false

/-- Test that an action emits the upload_complete event. -/
def isUploadCompleteAction : Action → Bool
  | .emit (.upload_complete _) => true
  | _ => false

/-- Test that an action emits the session_stopped lifecycle event. -/
def isStoppedAction : Action → Bool
  | .emit (.session_stopped _) => true
  | _ => false

/-- Test that an action emits a progress snapshot. -/
def isSnapshotAction : Action → Bool
  | .emit (.upload_status_update _) => true
  | _ => false

/-- The fixed 10-step plan of the specification, by the step labels the
code uses. -/
def ten_step_plan : List String :=
  ["Starting data flush...",
   "Uploading audio...",
   "Uploading screenshots...",
   "Uploading telemetry (mouse, keyboard, window changes)...",
   "Verifying uploads...",
   "Generating forge trigger JSON...",
   "Triggering forge processing pipeline...",
   "Processing workflow (stages A-F)...",
   "Uploading results to Firestore...",
   "Retrieving processed workflow..."]

/-- The labels the pipeline actually reports as completed, in order: the
10-step plan interleaved with the two extra summary entries the monitor
appends after the upload phase and at the very end. -/
def twelve_step_sequence : List String :=
  ["Starting data flush...",
   "Uploading audio...",
   "Uploading screenshots...",
   "Uploading telemetry (mouse, keyboard, window changes)...",
   "Verifying uploads...",
   "All uploads completed successfully!",
   "Generating forge trigger JSON...",
   "Triggering forge processing pipeline...",
   "Processing workflow (stages A-F)...",
   "Uploading results to Firestore...",
   "Retrieving processed workflow...",
   "Workflow processing completed! Ready to view results."]

/-- The first n labels of the completed sequence, as completed entries. -/
def completedPrefix (n : Nat) : List StepEntry :=
  (twelve_step_sequence.take n).map stepCompletedE

/-- The final snapshot of every pipeline run: is_uploading false and all
twelve labels completed. -/
def final_upload_status : UploadStatus :=
  ⟨"Processing complete", false, twelve_step_sequence.map stepCompletedE⟩

/-- The eleven progress snapshots every pipeline run emits, in order. -/
def pipeline_snapshot_list : List UploadStatus :=
  [⟨"Starting data flush...", true,
     completedPrefix 0 ++ [stepUploading "Starting data flush..."]⟩,
   ⟨"Uploading audio...", true,
     completedPrefix 1 ++ [stepUploading "Uploading audio..."]⟩,
   ⟨"Uploading screenshots...", true,
     completedPrefix 2 ++ [stepUploading "Uploading screenshots..."]⟩,
   ⟨"Uploading telemetry (mouse, keyboard, window changes)...", true,
     completedPrefix 3 ++
       [stepUploading "Uploading telemetry (mouse, keyboard, window changes)..."]⟩,
   ⟨"Verifying uploads...", true,
     completedPrefix 4 ++ [stepUploading "Verifying uploads..."]⟩,
   ⟨"Generating forge trigger JSON...", true,
     completedPrefix 6 ++ [stepUploading "Generating forge trigger JSON..."]⟩,
   ⟨"Triggering forge processing pipeline...", true,
     completedPrefix 7 ++ [stepUploading "Triggering forge processing pipeline..."]⟩,
   ⟨"Processing workflow (stages A-F)...", true,
     completedPrefix 8 ++ [stepUploading "Processing workflow (stages A-F)..."]⟩,
   ⟨"Uploading results to Firestore...", true,
     completedPrefix 9 ++ [stepUploading "Uploading results to Firestore..."]⟩,
   ⟨"Retrieving processed workflow...", true,
     completedPrefix 10 ++ [stepUploading "Retrieving processed workflow..."]⟩,
   final_upload_status]

/-- The snapshot events of every pipeline run, in order. -/
def core_events : List Event :=
  pipeline_snapshot_list.map Event.upload_status_update

/-- The property the specification asserts about a stop cycle: the
clearing of the session fields happens only after the final
upload_complete event. -/
def cleared_only_after_final (tr : List Action) : Prop :=
  ∀ i j, tr.findIdx? isClearAction = some i →
    tr.findIdx? isUploadCompleteAction = some j → j < i

/-- The initial value of self.upload_status set in the constructor. -/
def waiting_status : UploadStatus := ⟨"Waiting for session...", false, []⟩

/-- A freshly constructed server: no session, no workflow. -/
def initial_state : ServerState := ⟨false, none, none, none, waiting_status⟩

/-- A server with an active session and no workflow yet. -/
def example_active_state : ServerState :=
  ⟨true, some 100, some "session-abc", none, waiting_status⟩

/-- An idle server still holding the result of a previous cycle. -/
def idle_with_old_result : ServerState :=
  ⟨false, none, none, some fallback_workflow, waiting_status⟩

/-- A fully populated Firestore response. -/
def full_response : WorkflowResponse :=
  { workflow_data := some { title := some "Invoice Processing"
                            productivity_score := some (9 / 10)
                            guide_markdown := some "# Guide\n\nSteps." }
    workflow_id := some "wf-123"
    firestore_url := some "https://console.example/wf-123"
    source := some "firestore" }

/-- Collaborator outcomes where every call succeeds with a real result. -/
def all_ok_outcomes : ForgeOutcomes :=
  { trigger_generation := .ok ()
    forge_processing := .ok { status := some "completed" }
    retrieval := .ok (some full_response) }

/-- Collaborator outcomes where the retrieval returns None. -/
def absent_outcomes : ForgeOutcomes :=
  { trigger_generation := .ok ()
    forge_processing := .ok { status := some "completed" }
    retrieval := .ok none }

/-- Collaborator outcomes where every call raises. -/
def raising_outcomes : ForgeOutcomes :=
  { trigger_generation := .error "trigger boom"
    forge_processing := .error "forge boom"
    retrieval := .error "firestore boom" }

/-- The trigger-generation step label dispatches to the wrapper that does
not touch current_workflow. -/
theorem forgeAction_gen (oc : ForgeOutcomes) (cw : Option CurrentWorkflow) :
    forgeAction oc cw "Generating forge trigger JSON..." = cw := rfl

/-- The forge-processing step label dispatches to the wrapper that does
not touch current_workflow. -/
theorem forgeAction_trig (oc : ForgeOutcomes) (cw : Option CurrentWorkflow) :
    forgeAction oc cw "Triggering forge processing pipeline..." = cw := rfl

/-- The processing-wait step label matches no wrapper and only sleeps. -/
theorem forgeAction_proc (oc : ForgeOutcomes) (cw : Option CurrentWorkflow) :
    forgeAction oc cw "Processing workflow (stages A-F)..." = cw := rfl

/-- The persist-results step label matches no wrapper and only sleeps. -/
theorem forgeAction_persist (oc : ForgeOutcomes) (cw : Option CurrentWorkflow) :
    forgeAction oc cw "Uploading results to Firestore..." = cw := rfl

/-- The retrieval step label dispatches to the workflow retrieval. -/
theorem forgeAction_retr (oc : ForgeOutcomes) (cw : Option CurrentWorkflow) :
    forgeAction oc cw "Retrieving processed workflow..." =
      retrieve_workflow_from_firestore cw oc.retrieval := rfl

/-- Shape of the event list of every monitor run: the eleven snapshots
followed by the tail emissions determined by the retrieval result. -/
theorem monitor_events_shape (oc : ForgeOutcomes) (cw0 : Option CurrentWorkflow) :
    (monitor_uploads_and_forge oc cw0).events =
      core_events ++
        tail_events (retrieve_workflow_from_firestore cw0 oc.retrieval) := rfl

/-- The final workflow of the monitor is the value the retrieval step left in
current_workflow. -/
theorem monitor_final_workflow (oc : ForgeOutcomes) (cw0 : Option CurrentWorkflow) :
    (monitor_uploads_and_forge oc cw0).final_workflow =
      retrieve_workflow_from_firestore cw0 oc.retrieval := rfl

/-- The final upload_status of the monitor is the same for every run. -/
theorem monitor_final_status (oc : ForgeOutcomes) (cw0 : Option CurrentWorkflow) :
    (monitor_uploads_and_forge oc cw0).final_status = final_upload_status := rfl

/-- The tail emissions contain no progress snapshot. -/
theorem snapshots_tail_events (R : Option CurrentWorkflow) :
    snapshots (tail_events R) = [] := by
  cases R <;> rfl

/-- The snapshots of every monitor run are exactly the eleven fixed
snapshots, independent of the collaborator outcomes. -/
theorem snapshots_monitor (oc : ForgeOutcomes) (cw0 : Option CurrentWorkflow) :
    snapshots (monitor_uploads_and_forge oc cw0).events = pipeline_snapshot_list := by
  rw [monitor_events_shape]
  cases retrieve_workflow_from_firestore cw0 oc.retrieval <;> rfl

/-- The monitor emissions contain no session_stopped event. -/
theorem no_stopped_in_monitor (R : Option CurrentWorkflow) :
    ((core_events ++ tail_events R).map Action.emit).filter isStoppedAction = [] := by
  cases R <;> rfl

/-- On an active session, the stop handler yields the cleared state, no
error reply, and the trace: session_stopped, the clearing, then the
monitor emissions. -/
theorem handle_stop_trace (s : ServerState) (ok : Bool) (oc : ForgeOutcomes)
    (h : s.session_active = true) :
    handle_stop_session s ok oc =
      { state := { session_active := false
                   session_start_time := none
                   session_id := none
                   current_workflow :=
                     retrieve_workflow_from_firestore s.current_workflow oc.retrieval
                   upload_status := final_upload_status }
        error_reply := none
        trace := Action.emit (Event.session_stopped s.session_id) ::
          Action.clear_session_state ::
            ((core_events ++
                tail_events
                  (retrieve_workflow_from_firestore s.current_workflow oc.retrieval)).map
              Action.emit) } := by
  simp [handle_stop_session, stop_session, h, monitor_events_shape,
    monitor_final_workflow, monitor_final_status]

/-- C1: if the retrieval returns absence (None, or a value without the
workflow_data key), current_workflow is set to the deterministic fallback,
whose source is fallback and whose title and guide are non-empty; if it
returns a real (fully populated) result, every field of the stored
workflow maps 1:1 from the response, the origin being the source field of
the response, firestore by default. -/
theorem retrieval_populates_result_policy :
    (∀ prior, retrieve_workflow_from_firestore prior (.ok none) =
        some fallback_workflow) ∧
    (∀ prior wd, wd.workflow_data = none →
        retrieve_workflow_from_firestore prior (.ok (some wd)) =
          some fallback_workflow) ∧
    fallback_workflow.source = "fallback" ∧
    fallback_workflow.workflow.title ≠ "" ∧
    fallback_workflow.workflow.guide_markdown ≠ "" ∧
    (∀ prior t sc g wid u src,
        retrieve_workflow_from_firestore prior
            (.ok (some { workflow_data := some { title := some t
                                                 productivity_score := some sc
                                                 guide_markdown := some g }
                         workflow_id := some wid
                         firestore_url := some u
                         source := some src })) =
          some { workflow := { title := t, id := wid, score := sc
                               guide_markdown := g, firestore_url := some u }
                 source := src }) ∧
    (∀ prior t sc g wid u,
        retrieve_workflow_from_firestore prior
            (.ok (some { workflow_data := some { title := some t
                                                 productivity_score := some sc
                                                 guide_markdown := some g }
                         workflow_id := some wid
                         firestore_url := some u
                         source := none })) =
          some { workflow := { title := t, id := wid, score := sc
                               guide_markdown := g, firestore_url := some u }
                 source := "firestore" }) := by
  refine ⟨fun prior => rfl, ?_, rfl, by decide, by decide,
    fun prior t sc g wid u src => rfl, fun prior t sc g wid u => rfl⟩
  intro prior wd h
  obtain ⟨wdata, wid, u, src⟩ := wd
  cases h
  rfl

/-- C1 witness: a response without the workflow_data key yields the
fallback. -/
theorem retrieval_populates_result_policy_witness :
    retrieve_workflow_from_firestore none
        (.ok (some { workflow_data := none, workflow_id := none
                     firestore_url := none, source := none })) =
      some fallback_workflow :=
  retrieval_populates_result_policy.2.1 none _ rfl

/-- C2 counterexample: on a run with all collaborators succeeding, the
completed-step sequence differs from the fixed 10-step plan (it carries
two extra summary entries). -/
theorem completed_sequence_differs_from_plan :
    emitted_completed_sequence (monitor_uploads_and_forge all_ok_outcomes none).events ≠
      ten_step_plan := by
  decide

/-- C2 (amended): for every run, the completed-step sequence reported
across all snapshots equals the fixed 10-step plan in declared order
interleaved with two extra summary entries (one after the verify step,
one at the very end); the plan itself appears in order with no duplicate
and no omission. -/
theorem completed_sequence_is_plan_with_banners (oc : ForgeOutcomes)
    (cw0 : Option CurrentWorkflow) :
    emitted_completed_sequence (monitor_uploads_and_forge oc cw0).events =
        twelve_step_sequence ∧
    List.Sublist ten_step_plan twelve_step_sequence ∧
    twelve_step_sequence.Nodup := by
  refine ⟨?_, by decide, by decide⟩
  unfold emitted_completed_sequence
  rw [snapshots_monitor]
  rfl

/-- C3: a successful stop emits exactly one session_stopped event, it is
the very first action of the cycle, and every progress snapshot comes
strictly after it. -/
theorem stopped_event_unique_and_first (s : ServerState) (ok : Bool)
    (oc : ForgeOutcomes) (h : s.session_active = true) :
    ((handle_stop_session s ok oc).trace.head? =
        some (Action.emit (Event.session_stopped s.session_id))) ∧
    ((handle_stop_session s ok oc).trace.filter isStoppedAction).length = 1 ∧
    (∀ i (hi : i < (handle_stop_session s ok oc).trace.length),
        isSnapshotAction ((handle_stop_session s ok oc).trace.get ⟨i, hi⟩) = true →
          0 < i) := by
  rw [handle_stop_trace s ok oc h]
  refine ⟨rfl, ?_, ?_⟩
  · have hm := no_stopped_in_monitor
      (retrieve_workflow_from_firestore s.current_workflow oc.retrieval)
    simp only [List.filter_cons,
      show isStoppedAction (Action.emit (Event.session_stopped s.session_id)) = true
        from rfl,
      show isStoppedAction Action.clear_session_state = false from rfl,
      if_true, if_false, hm]
    rfl
  · intro i hi hsnap
    cases i with
    | zero => simp [isSnapshotAction] at hsnap
    | succ n => exact Nat.succ_pos n

/-- C3 witness. -/
theorem stopped_event_unique_and_first_witness :
    (handle_stop_session example_active_state true absent_outcomes).trace.head? =
      some (Action.emit (Event.session_stopped (some "session-abc"))) :=
  (stopped_event_unique_and_first example_active_state true absent_outcomes rfl).1

/-- C4: start succeeds only from Idle (no active session), stop succeeds
only from Active, and a stop requested while Idle fails with the
state-conflict reply, emits no event and leaves the state unchanged. -/
theorem state_guarded_transitions :
    (∀ s ok nid now s2, start_session s ok nid now = .ok s2 →
        s.session_active = false) ∧
    (∀ s ok oc r, stop_session s ok oc = .ok r → s.session_active = true) ∧
    (∀ s ok oc, s.session_active = false →
        handle_stop_session s ok oc =
          { state := s, error_reply := some "No active session to stop"
            trace := [] }) := by
  refine ⟨?_, ?_, ?_⟩
  · intro s ok nid now s2 h
    cases hs : s.session_active
    · rfl
    · simp [start_session, hs] at h
  · intro s ok oc r h
    cases hs : s.session_active
    · simp [stop_session, hs] at h
    · rfl
  · intro s ok oc h
    simp [handle_stop_session, h]

/-- C4 witness: start from Idle succeeds, stop from Active succeeds, stop
from Idle replies with the conflict error and changes nothing. -/
theorem state_guarded_transitions_witness :
    initial_state.session_active = false ∧
    example_active_state.session_active = true ∧
    handle_stop_session initial_state true absent_outcomes =
      { state := initial_state, error_reply := some "No active session to stop"
        trace := [] } := by
  refine ⟨state_guarded_transitions.1 initial_state true "session-xyz" 5 _ (by rfl),
    state_guarded_transitions.2.1 example_active_state true absent_outcomes _ (by rfl),
    state_guarded_transitions.2.2 initial_state true absent_outcomes rfl⟩

/-- C5 counterexample: on a concrete stop cycle the clearing of the
session fields happens at trace index 1 while the final upload_complete
event is emitted at index 14, so the session is cleared before, not after,
the final lifecycle event. -/
theorem clear_precedes_final_event_counterexample :
    ¬ cleared_only_after_final
        (handle_stop_session example_active_state true absent_outcomes).trace := by
  intro hcl
  have h := hcl 1 14 (by rfl) (by rfl)
  omega

/-- C5 (amended): the session id and start time are cleared synchronously
inside stop(), immediately after the session_stopped emission (trace index
1) and strictly before the final upload_complete event of the pipeline; the
monitor uses captured copies, and after stop() the state fields are
already cleared. -/
theorem session_cleared_synchronously_in_stop (s : ServerState) (ok : Bool)
    (oc : ForgeOutcomes) (h : s.session_active = true) :
    (handle_stop_session s ok oc).trace.findIdx? isClearAction = some 1 ∧
    (∀ j, (handle_stop_session s ok oc).trace.findIdx? isUploadCompleteAction =
        some j → 1 < j) ∧
    (handle_stop_session s ok oc).state.session_id = none ∧
    (handle_stop_session s ok oc).state.session_start_time = none := by
  rw [handle_stop_trace s ok oc h]
  cases retrieve_workflow_from_firestore s.current_workflow oc.retrieval with
  | none =>
    refine ⟨rfl, ?_, rfl, rfl⟩
    intro j hj
    have h13 : some 13 = some j := hj
    cases h13
    omega
  | some w =>
    refine ⟨rfl, ?_, rfl, rfl⟩
    intro j hj
    have h14 : some 14 = some j := hj
    cases h14
    omega

/-- C5 (amended) witness. -/
theorem session_cleared_synchronously_in_stop_witness :
    (handle_stop_session example_active_state true absent_outcomes).trace.findIdx?
        isClearAction = some 1 ∧
    (handle_stop_session example_active_state true absent_outcomes).state.session_id =
      none :=
  ⟨(session_cleared_synchronously_in_stop example_active_state true absent_outcomes
      rfl).1,
   (session_cleared_synchronously_in_stop example_active_state true absent_outcomes
      rfl).2.2.1⟩

/-- C6: across every run, the completed entries of successive snapshots
only ever grow by appending (the completed list of each snapshot is a
leading piece of that of the next), the step sequences grow strictly, the
final snapshot has is_uploading false while every earlier one has it
true, and after the final snapshot the remaining emissions contain no
snapshot. -/
theorem snapshots_append_only_monotone (oc : ForgeOutcomes)
    (cw0 : Option CurrentWorkflow) :
    List.Chain' (fun a b => completedEntries a <+: completedEntries b)
        (snapshots (monitor_uploads_and_forge oc cw0).events) ∧
    List.Chain' (fun a b => a.steps.length < b.steps.length)
        (snapshots (monitor_uploads_and_forge oc cw0).events) ∧
    (snapshots (monitor_uploads_and_forge oc cw0).events).getLast? =
      some final_upload_status ∧
    final_upload_status.is_uploading = false ∧
    (∀ u ∈ (snapshots (monitor_uploads_and_forge oc cw0).events).dropLast,
        u.is_uploading = true) ∧
    snapshots (tail_events (monitor_uploads_and_forge oc cw0).final_workflow) = [] := by
  rw [snapshots_monitor]
  refine ⟨?_, ?_, rfl, rfl, by decide,
    snapshots_tail_events (monitor_uploads_and_forge oc cw0).final_workflow⟩
  · show List.Chain' _ pipeline_snapshot_list
    simp only [pipeline_snapshot_list, List.chain'_cons, List.chain'_singleton,
      and_true]
    decide
  · show List.Chain' _ pipeline_snapshot_list
    simp only [pipeline_snapshot_list, List.chain'_cons, List.chain'_singleton,
      and_true]
    decide

/-- C6 witness: the first snapshot of a concrete run is a non-final one
and reports is_uploading true. -/
theorem snapshots_append_only_monotone_witness :
    (⟨"Starting data flush...", true,
        [stepUploading "Starting data flush..."]⟩ : UploadStatus).is_uploading =
      true :=
  (snapshots_append_only_monotone absent_outcomes none).2.2.2.2.1
    ⟨"Starting data flush...", true, [stepUploading "Starting data flush..."]⟩
    (by rw [snapshots_monitor]; decide)

/-- C7: whatever the collaborator outcomes — including every call
raising — the pipeline always runs to completion: its last event is
upload_complete, the retrieval step (step 10) is executed, the final
snapshot is inactive and lists step 10 as completed, the failing wrappers
only log, and after a stop the session is no longer active. -/
theorem pipeline_completes_despite_collaborator_failures (oc : ForgeOutcomes)
    (cw0 : Option CurrentWorkflow) :
    ((monitor_uploads_and_forge oc cw0).events.getLast? =
        some (Event.upload_complete
          (monitor_uploads_and_forge oc cw0).final_workflow.isSome)) ∧
    ((monitor_uploads_and_forge oc cw0).final_workflow =
        retrieve_workflow_from_firestore cw0 oc.retrieval) ∧
    stepCompletedE "Retrieving processed workflow..." ∈
        (monitor_uploads_and_forge oc cw0).final_status.steps ∧
    (monitor_uploads_and_forge oc cw0).final_status.is_uploading = false ∧
    (∀ e, execute_forge_trigger_generation (.error e) =
        ["Error generating forge trigger: " ++ e]) ∧
    (∀ e, execute_forge_processing (.error e) =
        ["Error in forge processing: " ++ e]) ∧
    (∀ s ok, s.session_active = true →
        (handle_stop_session s ok oc).state.session_active = false) := by
  refine ⟨?_, monitor_final_workflow oc cw0,
    by rw [monitor_final_status]; decide, rfl,
    fun e => rfl, fun e => rfl, ?_⟩
  · rw [monitor_events_shape, monitor_final_workflow]
    cases retrieve_workflow_from_firestore cw0 oc.retrieval <;> rfl
  · intro s ok h
    rw [handle_stop_trace s ok oc h]

/-- C7 witness: with every collaborator raising, the stop cycle still
leaves the session inactive and the pipeline still executed step 10
(keeping the prior workflow, here none). -/
theorem pipeline_completes_despite_collaborator_failures_witness :
    (handle_stop_session example_active_state true raising_outcomes).state.session_active =
        false ∧
    (monitor_uploads_and_forge raising_outcomes none).final_workflow = none := by
  refine ⟨(pipeline_completes_despite_collaborator_failures raising_outcomes
      none).2.2.2.2.2.2 example_active_state true rfl, ?_⟩
  rw [(pipeline_completes_despite_collaborator_failures raising_outcomes none).2.1]
  rfl

/-- C8 counterexample: starting a new session on a server still holding
the workflow of the previous cycle keeps that workflow in place, and the
status query of the fresh session reports has_workflow true — the stored
result is retained, not replaced, at the start of the next cycle. -/
theorem start_retains_previous_workflow :
    start_session idle_with_old_result true "session-2" 7 =
      .ok { session_active := true, session_start_time := some 7
            session_id := some "session-2"
            current_workflow := some fallback_workflow
            upload_status := waiting_status } ∧
    (api_get_status { session_active := true, session_start_time := some 7
                      session_id := some "session-2"
                      current_workflow := some fallback_workflow
                      upload_status := waiting_status } true).has_workflow = true :=
  ⟨rfl, rfl⟩

/-- C8 (amended): the stored workflow result is retained unchanged across
the start of the next cycle and is only replaced when the retrieval step
of that cycle runs; the replacement is a genuine overwrite — on the
non-raising path the new value does not depend on the prior one (no
merging). -/
theorem workflow_retained_until_retrieval (s : ServerState) (ok : Bool)
    (nid : String) (now : Nat) (s2 : ServerState)
    (h : start_session s ok nid now = .ok s2) :
    s2.current_workflow = s.current_workflow ∧
    (∀ p1 p2 outcome,
        retrieve_workflow_from_firestore p1 (.ok outcome) =
          retrieve_workflow_from_firestore p2 (.ok outcome)) := by
  constructor
  · cases hs : s.session_active
    · cases hok : ok
      · simp [start_session, hs, hok] at h
      · simp [start_session, hs, hok] at h
        rw [← h]
    · simp [start_session, hs] at h
  · intro p1 p2 outcome
    cases outcome with
    | none => rfl
    | some wd =>
      cases hwd : wd.workflow_data <;>
        simp [retrieve_workflow_from_firestore, hwd]

/-- C8 (amended) witness. -/
theorem workflow_retained_until_retrieval_witness :
    ({ session_active := true, session_start_time := some 7
       session_id := some "session-2"
       current_workflow := some fallback_workflow
       upload_status := waiting_status } : ServerState).current_workflow =
      idle_with_old_result.current_workflow :=
  (workflow_retained_until_retrieval idle_with_old_result true "session-2" 7 _
    rfl).1

/-- C9: when the retrieval call raises (rather than returning a value),
the stored workflow slot keeps its prior value — possibly None or the
result of the previous cycle — and no fallback is installed on this path. -/
theorem retrieval_exception_preserves_workflow (prior : Option CurrentWorkflow)
    (e : String) :
    retrieve_workflow_from_firestore prior (.error e) = prior ∧
    (∀ oc cw0, oc.retrieval = .error e →
        (monitor_uploads_and_forge oc cw0).final_workflow = cw0) := by
  refine ⟨rfl, ?_⟩
  intro oc cw0 h
  rw [monitor_final_workflow, h]
  rfl

/-- C9 witness: a raising retrieval leaves the workflow of the previous cycle
untouched. -/
theorem retrieval_exception_preserves_workflow_witness :
    (monitor_uploads_and_forge raising_outcomes
        (some fallback_workflow)).final_workflow = some fallback_workflow :=
  (retrieval_exception_preserves_workflow (some fallback_workflow)
    "firestore boom").2 raising_outcomes (some fallback_workflow) rfl

/-- C10: every successful POST /api/session/stop returns success true
with HTTP 200, but the session_id field of the body is always null,
because stop_session clears self.session_id before the body is built. -/
theorem stop_api_response_session_id_null (s : ServerState) (ok : Bool)
    (oc : ForgeOutcomes) (h : s.session_active = true) :
    (api_stop_session s ok oc).response =
      { success := true, session_id := some none
        message := some "Session stopped, processing workflow...", error := none } ∧
    (api_stop_session s ok oc).http_code = 200 := by
  simp [api_stop_session, stop_session, h]

/-- C10 witness. -/
theorem stop_api_response_session_id_null_witness :
    (api_stop_session example_active_state true absent_outcomes).response =
      { success := true, session_id := some none
        message := some "Session stopped, processing workflow...", error := none } :=
  (stop_api_response_session_id_null example_active_state true absent_outcomes
    rfl).1

end FlingoosWebUI
